import Mathlib

/-! Verification of `orc/code_orchestration.py`: the single-turn RAG answer
orchestrator `get_answer`.  External collaborators (the two chat-completion
HTTP calls, the retrieval plugin invocation, the groundedness semantic
function, the message catalogue and the prompt file) are modelled as an
environment record supplying their per-turn outcomes; `get_answer` itself is
translated statement by statement, including the broad try/except around the
RAG flow and the quality-control step.  An uncaught Python exception is
modelled as `Except.error` carrying the exception text. -/

namespace Orc

/-- A function-call directive inside an assistant message:
`response_message["function_call"]` with its `name` and raw `arguments` text. -/
structure FunctionCall where
  fname : String
  arguments : String
deriving Repr, DecidableEq

/-- A chat message dictionary.  `content := none` models Python `None`;
`function_call`/`name` are `none` when the corresponding key is absent. -/
structure Message where
  role : String
  content : Option String := none
  function_call : Option FunctionCall := none
  name : Option String := none
deriving Repr, DecidableEq

/-- The `usage` block of a chat-completion response. -/
structure Usage where
  prompt_tokens : Nat
  completion_tokens : Nat
deriving Repr, DecidableEq

/-- A chat-completion response: `choices[0].message` plus `usage`. -/
structure CompletionResponse where
  message : Message
  usage : Usage
deriving Repr, DecidableEq

/-- Per-turn outcomes of the external collaborators of `get_answer`.
`Except.error e` models the call raising an exception whose text is `e`
(for `chat_complete` this is the failure propagated after the tenacity
retries are exhausted, `reraise=True`).
`argsParse` is the outcome of `json.loads` on the directive's `arguments`
text: `none` models a `json.JSONDecodeError`, `some kvs` the parsed
key/value pairs. -/
structure Env where
  prompt : String
  firstCompletion : Except String CompletionResponse
  argsParse : Option (List (String × String))
  retrievalResult : Except String String
  secondCompletion : Except String CompletionResponse
  groundedness : Except String String
deriving Repr

/-- Modelled from the spec: `get_message("ERROR_ANSWER")` from `shared.util`
(not under src); an opaque fixed error-answer text from the message
catalogue. -/
def ERROR_ANSWER : String := "There was an error processing your request."

/-- Modelled from the spec: `get_message("UNGROUNDED_ANSWER")` from
`shared.util` (not under src); the fixed insufficient-grounding fallback
answer. -/
def UNGROUNDED_ANSWER : String := "I could not find sufficient grounding to answer."

/-- Text of the `KeyError` raised when looking up a missing dictionary key
(Python renders the missing key). -/
def keyErrorMsg (k : String) : String := "KeyError: " ++ k

/-- Text of the `json.JSONDecodeError` raised by `json.loads`. -/
def jsonDecodeErrorMsg : String := "JSONDecodeError: Expecting value"

/-- Text of the `IndexError` raised by `messages[-2]` on a list with fewer
than two elements. -/
def indexErrorMsg : String := "IndexError: list index out of range"

/-- Python `str.isdigit`: true iff the string is non-empty and every
character is a digit.  (In particular false for `"-2"` and `" 4 "`.) -/
def pyIsDigit (s : String) : Bool := !s.data.isEmpty && s.data.all (fun c => c.isDigit)

/-- `int(s)` on a string of digit characters. -/
def digitsToNat (s : String) : Nat :=
  s.data.foldl (fun n c => n * 10 + (c.toNat - 48)) 0

/-- The system message built at line 103:
`{"role": "system", "content": prompt}`. -/
def systemMessage (prompt : String) : Message :=
  { role := "system", content := some prompt }

/-- Line 103: `messages = [system] + chat_history_messages`.  The chat
history is taken as the output of the external
`get_chat_history_as_messages`. -/
def initialMessages (prompt : String) (chatHistory : List Message) : List Message :=
  systemMessage prompt :: chatHistory

/-- State of the local variables of `get_answer` when control leaves the
RAG-flow try/except (lines 109-178).  `messages`, `answer`,
`search_query`/`sources` (the metadata entries of `answer_dict`),
token counters and the `rag_processing_error` flag are the source's
variables; `retrieval_invoked` and `second_call_messages` are ghost
observations recording that line 124 executed and, respectively, the
message list passed to the second `chat_complete` (line 144). -/
structure RagState where
  messages : List Message
  prompt_tokens : Nat
  completion_tokens : Nat
  answer : Option String
  search_query : Option String
  sources : Option String
  rag_error : Bool
  retrieval_invoked : Bool
  second_call_messages : Option (List Message)
deriving Repr, DecidableEq

/-- The except-branch of the RAG flow (lines 175-178): the answer becomes
the catalogue error text plus `" RAG flow: "` plus the exception text and
`rag_processing_error` is set; metadata entries were never written. -/
def ragError (msgs : List Message) (pt ct : Nat) (invoked : Bool)
    (scm : Option (List Message)) (e : String) : RagState :=
  { messages := msgs, prompt_tokens := pt, completion_tokens := ct,
    answer := some (ERROR_ANSWER ++ " RAG flow: " ++ e),
    search_query := none, sources := none, rag_error := true,
    retrieval_invoked := invoked, second_call_messages := scm }

/-- A successful exit of the try block: line 173 sets
`answer = messages[-1]["content"]`. -/
def ragSuccess (msgs : List Message) (pt ct : Nat) (sq src : Option String)
    (invoked : Bool) (scm : Option (List Message)) : RagState :=
  { messages := msgs, prompt_tokens := pt, completion_tokens := ct,
    answer := msgs.getLast?.bind Message.content,
    search_query := sq, sources := src, rag_error := false,
    retrieval_invoked := invoked, second_call_messages := scm }

/-- The RAG-flow try/except, lines 109-178, translated statement by
statement.  The dispatch table `function_dict` (lines 95-97) has the single
key `"get_sources"`, mapping to the retrieval plugin; looking up any other
name raises `KeyError` (line 121), caught by the broad handler. -/
def ragFlow (env : Env) (msgs0 : List Message) : RagState :=
  match env.firstCompletion with
  | Except.error e => ragError msgs0 0 0 false none e
  | Except.ok r1 =>
    -- lines 114-115: accumulate usage of the first call
    let pt := r1.usage.prompt_tokens
    let ct := r1.usage.completion_tokens
    match r1.message.function_call with
    | some fc =>
      -- line 120: json.loads(arguments)
      match env.argsParse with
      | none => ragError msgs0 pt ct false none jsonDecodeErrorMsg
      | some args =>
        -- line 121: function_dict[function_name]
        if _hname : fc.fname = "get_sources" then
          -- line 124: invoke the resolved capability
          match env.retrievalResult with
          | Except.error e => ragError msgs0 pt ct true none e
          | Except.ok res =>
            -- lines 127-141: append the function-call and function-result messages
            let fcMsg : Message :=
              { role := r1.message.role, content := none, function_call := some fc }
            let fnMsg : Message :=
              { role := "function", content := some res, name := some fc.fname }
            let msgs1 := msgs0 ++ [fcMsg, fnMsg]
            -- line 144: second chat_complete with function_call="none"
            match env.secondCompletion with
            | Except.error e => ragError msgs1 pt ct true (some msgs1) e
            | Except.ok r2 =>
              -- lines 146-147: accumulate usage of the second call
              let pt2 := pt + r2.usage.prompt_tokens
              let ct2 := ct + r2.usage.completion_tokens
              -- lines 150-155: append the assistant answer
              let asstMsg : Message :=
                { role := r2.message.role, content := r2.message.content }
              let msgs2 := msgs1 ++ [asstMsg]
              -- lines 158-160: metadata when the called function is get_sources
              if fc.fname = "get_sources" then
                match args.lookup "question" with
                | none =>
                  -- line 159: function_args["question"] raises KeyError
                  ragError msgs2 pt2 ct2 true (some msgs1) (keyErrorMsg "question")
                | some q =>
                  ragSuccess msgs2 pt2 ct2 (some q) (some res) true (some msgs1)
              else
                ragSuccess msgs2 pt2 ct2 none none true (some msgs1)
        else
          ragError msgs0 pt ct false none (keyErrorMsg fc.fname)
    | none =>
      -- lines 165-170: append the assistant answer directly
      ragSuccess (msgs0 ++ [{ role := r1.message.role, content := r1.message.content }])
        pt ct none none false none

/-- The dictionary returned by `get_answer` (lines 205-209 plus the
optional entries written earlier).  An `Option` field being `none` models
the key being absent from the dictionary. -/
structure AnswerDict where
  search_query : Option String
  sources : Option String
  gpt_groudedness : Option Nat
  prompt : String
  answer : Option String
  prompt_tokens : Nat
  completion_tokens : Nat
deriving Repr, DecidableEq

/-- The keys present in the returned dictionary, in insertion order
(lines 158-160, 199, 205-208). -/
def AnswerDict.keys (d : AnswerDict) : List String :=
  (if d.search_query.isSome then ["search_query"] else []) ++
  (if d.sources.isSome then ["sources"] else []) ++
  (if d.gpt_groudedness.isSome then ["gpt_groudedness"] else []) ++
  ["prompt", "answer", "prompt_tokens", "completion_tokens"]

/-- Final dictionary assembly (lines 205-209) from the RAG state, the
recorded groundedness score and the (possibly gate-replaced) answer. -/
def mkDict (prompt : String) (st : RagState) (score : Option Nat)
    (ans : Option String) : AnswerDict :=
  { search_query := st.search_query, sources := st.sources,
    gpt_groudedness := score, prompt := prompt, answer := ans,
    prompt_tokens := st.prompt_tokens, completion_tokens := st.completion_tokens }

/-- `messages[-2]`: the second-to-last element, `none` when the list has
fewer than two elements (Python raises `IndexError` then). -/
def secondToLast (l : List Message) : Option Message := l.dropLast.getLast?

/-- The quality-control step and final assembly (lines 186-209), applied to
the state left by the RAG flow.  It runs outside the broad handler:
`messages[-2]` raises `IndexError` on a too-short list and
`next_to_last["name"]` raises `KeyError` on a function-role message without
a name key; both propagate to the caller and are modelled as
`Except.error`.  The inner try of the quality gate swallows an evaluator
failure, and a non-digit evaluator text is only logged. -/
def qualityGate (env : Env) (st : RagState) : Except String AnswerDict :=
  match secondToLast st.messages with
  | none => Except.error indexErrorMsg
  | some nm =>
    if nm.role = "function" then
      match nm.name with
      | none => Except.error (keyErrorMsg "name")
      | some n =>
        if n = "get_sources" && !st.rag_error then
          match env.groundedness with
          | Except.error _ => Except.ok (mkDict env.prompt st none st.answer)
          | Except.ok txt =>
            if pyIsDigit txt then
              Except.ok (mkDict env.prompt st (some (digitsToNat txt))
                (if digitsToNat txt < 3 then some UNGROUNDED_ANSWER else st.answer))
            else Except.ok (mkDict env.prompt st none st.answer)
        else Except.ok (mkDict env.prompt st none st.answer)
    else Except.ok (mkDict env.prompt st none st.answer)

/-- `get_answer(history)` (lines 66-209): the RAG flow on the initial
message list, then the quality-control step and final dictionary
assembly. -/
def get_answer (env : Env) (chatHistory : List Message) : Except String AnswerDict :=
  qualityGate env (ragFlow env (initialMessages env.prompt chatHistory))

/-! ### Helper lemmas -/

theorem secondToLast_concat (l : List Message) (a : Message) :
    secondToLast (l ++ [a]) = l.getLast? := by
  simp [secondToLast]

theorem secondToLast_append_two (l : List Message) (a b : Message) :
    secondToLast (l ++ [a, b]) = some a := by
  have h : l ++ [a, b] = (l ++ [a]) ++ [b] := by simp
  rw [h, secondToLast_concat, List.getLast?_concat]

theorem secondToLast_append_three (l : List Message) (a b c : Message) :
    secondToLast (l ++ [a, b, c]) = some b := by
  have h : l ++ [a, b, c] = (l ++ [a, b]) ++ [c] := by simp
  rw [h, secondToLast_concat]
  have h2 : l ++ [a, b] = (l ++ [a]) ++ [b] := by simp
  rw [h2, List.getLast?_concat]

theorem ragFlow_first_error (env : Env) (m : List Message) (e : String)
    (h : env.firstCompletion = Except.error e) :
    ragFlow env m = ragError m 0 0 false none e := by
  simp [ragFlow, h]

theorem ragFlow_direct (env : Env) (m : List Message) (r : CompletionResponse)
    (h1 : env.firstCompletion = Except.ok r)
    (h2 : r.message.function_call = none) :
    ragFlow env m =
      ragSuccess (m ++ [{ role := r.message.role, content := r.message.content }])
        r.usage.prompt_tokens r.usage.completion_tokens none none false none := by
  simp [ragFlow, h1, h2]

theorem ragFlow_unknown_name (env : Env) (m : List Message) (r : CompletionResponse)
    (fc : FunctionCall) (args : List (String × String))
    (h1 : env.firstCompletion = Except.ok r)
    (h2 : r.message.function_call = some fc)
    (h3 : ¬ fc.fname = "get_sources")
    (h4 : env.argsParse = some args) :
    ragFlow env m =
      ragError m r.usage.prompt_tokens r.usage.completion_tokens false none
        (keyErrorMsg fc.fname) := by
  simp [ragFlow, h1, h2, h4, h3]

/-- Every exit of the try/except has the `ragError` or the `ragSuccess` shape,
and in the error case the answer carries the fixed error text. -/
theorem ragFlow_rag_error_answer (env : Env) (m : List Message) :
    (ragFlow env m).rag_error = true →
      ∃ e, (ragFlow env m).answer = some (ERROR_ANSWER ++ " RAG flow: " ++ e) := by
  unfold ragFlow
  repeat' split
  all_goals intro hh
  all_goals first
    | exact ⟨_, rfl⟩
    | simp [ragSuccess] at hh

/-- When the error flag is up, the quality gate leaves the answer and the
score alone: the returned dictionary is the RAG state's data with no score. -/
theorem qualityGate_of_rag_error (env : Env) (st : RagState) (d : AnswerDict)
    (hflag : st.rag_error = true) (hOk : qualityGate env st = Except.ok d) :
    d = mkDict env.prompt st none st.answer := by
  unfold qualityGate at hOk
  simp only [hflag, Bool.not_true, Bool.and_false, Bool.false_eq_true, if_false] at hOk
  repeat' split at hOk
  all_goals first
    | exact ((Except.ok.injEq _ _).mp hOk).symm
    | cases hOk

/-- Every successfully returned dictionary is the final assembly of the RAG
state with some score and answer. -/
theorem qualityGate_ok_shape (env : Env) (st : RagState) (d : AnswerDict)
    (hOk : qualityGate env st = Except.ok d) :
    ∃ sc a, d = mkDict env.prompt st sc a := by
  unfold qualityGate at hOk
  repeat' split at hOk
  all_goals first
    | exact ⟨_, _, ((Except.ok.injEq _ _).mp hOk).symm⟩
    | cases hOk

/-- The returned dictionary never has an `"error"` key: the error condition
lives only in the local `rag_processing_error` flag. -/
theorem error_key_not_mem (d : AnswerDict) : "error" ∉ d.keys := by
  rcases d with ⟨sq, src, g, p, a, pt, ct⟩
  cases sq <;> cases src <;> cases g <;> simp [AnswerDict.keys]

/-- The error answer is never the empty string: it contains the fixed
`" RAG flow: "` fragment. -/
theorem error_answer_length_pos (e : String) :
    0 < (ERROR_ANSWER ++ " RAG flow: " ++ e).length := by
  rw [String.length_append, String.length_append]
  have h : (" RAG flow: ").length = 11 := rfl
  omega

theorem getLast?_append_two (l : List Message) (a b : Message) :
    (l ++ [a, b]).getLast? = some b := by
  have h : l ++ [a, b] = (l ++ [a]) ++ [b] := by simp
  rw [h, List.getLast?_concat]

/-- The `sources` metadata is present in the RAG state exactly when the
retrieval capability was invoked and the whole round then succeeded. -/
theorem ragFlow_sources_invoked (env : Env) (m : List Message) :
    (ragFlow env m).sources.isSome =
      ((ragFlow env m).retrieval_invoked && !(ragFlow env m).rag_error) := by
  unfold ragFlow
  repeat' split
  all_goals simp_all [ragError, ragSuccess]

/-! ### Concrete turns used by counterexamples and witnesses -/

def userMsg : Message := { role := "user", content := some "What is policy X?" }

def histU : List Message := [userMsg]

def respDirect : CompletionResponse :=
  { message := { role := "assistant", content := some "direct reply" },
    usage := { prompt_tokens := 7, completion_tokens := 5 } }

def fcGetSources : FunctionCall := { fname := "get_sources", arguments := "argtext" }

def respFC : CompletionResponse :=
  { message := { role := "assistant", content := none, function_call := some fcGetSources },
    usage := { prompt_tokens := 10, completion_tokens := 2 } }

def respFinal : CompletionResponse :=
  { message := { role := "assistant", content := some "final answer" },
    usage := { prompt_tokens := 20, completion_tokens := 6 } }

/-- A turn whose RAG round runs the full retrieval function round. -/
def envRetrieval : Env :=
  { prompt := "SYS",
    firstCompletion := Except.ok respFC,
    argsParse := some [("question", "What is policy X?")],
    retrievalResult := Except.ok "Policy X states ...",
    secondCompletion := Except.ok respFinal,
    groundedness := Except.ok "4" }

/-- The function-result message the retrieval round of `envRetrieval`
appends to the conversation. -/
def fnMsgRetrieval : Message :=
  { role := "function", content := some "Policy X states ...", name := some "get_sources" }

/-- A turn whose first completion call fails (for example after the retry
budget is exhausted). -/
def envFirstFails : Env :=
  { prompt := "SYS",
    firstCompletion := Except.error "network down",
    argsParse := none,
    retrievalResult := Except.error "unused",
    secondCompletion := Except.error "unused",
    groundedness := Except.error "unused" }

/-- A turn answered directly, with no function-call directive. -/
def envDirectOk : Env :=
  { prompt := "SYS",
    firstCompletion := Except.ok respDirect,
    argsParse := none,
    retrievalResult := Except.error "unused",
    secondCompletion := Except.error "unused",
    groundedness := Except.error "unused" }

/-! ### Claim C1 -/

/-- Claim C1 (code bug): with an empty chat history and a RAG round that
fails before any message is appended, `get_answer` does not return a
dictionary at all — the `messages[-2]` access of the quality-control step
(line 186, outside the broad try/except) raises `IndexError` on the
one-element list `[system]`, and the exception propagates to the caller,
contradicting the always-returns guarantee. -/
theorem get_answer_raises_on_empty_history_failure :
    get_answer envFirstFails [] = Except.error indexErrorMsg := rfl

/-! ### Claim C2 -/

/-- Claim C2 (counterexample): after an exception in the RAG round the
returned dictionary carries no `"error"` key at all — its keys are exactly
`prompt`, `answer`, `prompt_tokens`, `completion_tokens` — so it does not
have `error=true`; the error condition only set the local
`rag_processing_error` flag. -/
theorem error_key_absent_after_rag_exception :
    (get_answer envFirstFails histU).map AnswerDict.keys =
      Except.ok ["prompt", "answer", "prompt_tokens", "completion_tokens"] := rfl

/-- Claim C2 (amended): whenever the RAG round raised an exception and
`get_answer` returns a dictionary, its answer is the fixed prefix text
followed by the error text and is non-empty, and no groundedness key is
present; however the dictionary contains no `"error"` key (the error state
is only a local flag), and with an empty history nothing is returned at
all. -/
theorem rag_exception_answer_shape (env : Env) (hist : List Message) (d : AnswerDict)
    (hflag : (ragFlow env (initialMessages env.prompt hist)).rag_error = true)
    (hOk : get_answer env hist = Except.ok d) :
    (∃ e, d.answer = some (ERROR_ANSWER ++ " RAG flow: " ++ e)) ∧
    (∀ s, d.answer = some s → 0 < s.length) ∧
    d.gpt_groudedness = none ∧ "error" ∉ d.keys := by
  have hOk2 : qualityGate env (ragFlow env (initialMessages env.prompt hist)) =
      Except.ok d := hOk
  have hd := qualityGate_of_rag_error env _ d hflag hOk2
  obtain ⟨e, he⟩ := ragFlow_rag_error_answer env (initialMessages env.prompt hist) hflag
  subst hd
  refine ⟨⟨e, he⟩, ?_, rfl, error_key_not_mem _⟩
  intro s hs
  have hs2 : some (ERROR_ANSWER ++ " RAG flow: " ++ e) = some s := by
    rw [← he]; exact hs
  rw [← Option.some.inj hs2]
  exact error_answer_length_pos e

/-- The dictionary returned by the turn `envFirstFails`/`histU`. -/
def dFirstFails : AnswerDict :=
  { search_query := none, sources := none, gpt_groudedness := none,
    prompt := "SYS",
    answer := some (ERROR_ANSWER ++ " RAG flow: " ++ "network down"),
    prompt_tokens := 0, completion_tokens := 0 }

/-- Witness for C2's amended theorem at the concrete failing turn. -/
theorem rag_exception_answer_shape_witness :
    (∃ e, dFirstFails.answer = some (ERROR_ANSWER ++ " RAG flow: " ++ e)) ∧
    (∀ s, dFirstFails.answer = some s → 0 < s.length) ∧
    dFirstFails.gpt_groudedness = none ∧ "error" ∉ dFirstFails.keys :=
  rag_exception_answer_shape envFirstFails histU dFirstFails rfl rfl

/-! ### Claim C3 -/

/-- A history whose last message is a retrieval function-result message
(as the external history serializer may produce). -/
def fnHistMsg : Message :=
  { role := "function", content := some "old sources", name := some "get_sources" }

def histFn : List Message := [userMsg, fnHistMsg]

/-- A direct-answer turn whose evaluator would return a low score. -/
def envDirectLow : Env :=
  { prompt := "SYS",
    firstCompletion := Except.ok respDirect,
    argsParse := none,
    retrievalResult := Except.error "unused",
    secondCompletion := Except.error "unused",
    groundedness := Except.ok "1" }

/-- Claim C3 (counterexample): a turn without a function-call directive
whose history ends in a `get_sources` function-result message still enters
the quality gate (line 187 only inspects `messages[-2]`), records a
groundedness score and even replaces the answer with the ungrounded
fallback, so the answer does not equal the first completion's content and
the score field is set. -/
theorem direct_answer_gate_leak :
    get_answer envDirectLow histFn = Except.ok
      { search_query := none, sources := none, gpt_groudedness := some 1,
        prompt := "SYS", answer := some UNGROUNDED_ANSWER,
        prompt_tokens := 7, completion_tokens := 5 } := rfl

/-- Claim C3 (amended): for a turn whose first completion carries no
function-call directive, provided the last message of the initial
conversation is not a function-role message that would trigger (or crash)
the quality gate, the answer equals the first completion's content and the
`search_query`/`sources`/`gpt_groudedness` keys are all absent. -/
theorem direct_answer_fields (env : Env) (hist : List Message) (r : CompletionResponse)
    (h1 : env.firstCompletion = Except.ok r)
    (h2 : r.message.function_call = none)
    (h3 : ∀ m, (initialMessages env.prompt hist).getLast? = some m →
      m.role = "function" → ∃ n, m.name = some n ∧ n ≠ "get_sources") :
    get_answer env hist = Except.ok
      { search_query := none, sources := none, gpt_groudedness := none,
        prompt := env.prompt, answer := r.message.content,
        prompt_tokens := r.usage.prompt_tokens,
        completion_tokens := r.usage.completion_tokens } := by
  have hst := ragFlow_direct env (initialMessages env.prompt hist) r h1 h2
  show qualityGate env (ragFlow env (initialMessages env.prompt hist)) = _
  rw [hst]
  unfold qualityGate
  simp only [ragSuccess, secondToLast_concat]
  rcases hml : (initialMessages env.prompt hist).getLast? with _ | ml
  · exact absurd hml (by simp [initialMessages])
  · simp only
    by_cases hrole : ml.role = "function"
    · obtain ⟨n, hn, hne⟩ := h3 ml hml hrole
      simp [hrole, hn, hne, mkDict, List.getLast?_concat]
    · simp [hrole, mkDict, List.getLast?_concat]

/-- Witness for C3's amended theorem at a concrete direct-answer turn. -/
theorem direct_answer_fields_witness :
    get_answer envDirectOk histU = Except.ok
      { search_query := none, sources := none, gpt_groudedness := none,
        prompt := envDirectOk.prompt, answer := respDirect.message.content,
        prompt_tokens := respDirect.usage.prompt_tokens,
        completion_tokens := respDirect.usage.completion_tokens } :=
  direct_answer_fields envDirectOk histU respDirect rfl rfl
    (fun m hm hrole => by
      have hm2 : m = userMsg := by
        have h : (initialMessages envDirectOk.prompt histU).getLast? = some userMsg := rfl
        rw [h] at hm
        exact (Option.some.inj hm).symm
      rw [hm2] at hrole
      exact absurd hrole (by decide))

/-! ### Claim C4 -/

/-- A full retrieval turn whose evaluator returns `"-2"`. -/
def envNegScore : Env := { envRetrieval with groundedness := Except.ok "-2" }

/-- Claim C4 (counterexample): the evaluator text `"-2"` parses as an
integer, yet no score is recorded (line 194 uses `str.isdigit`, which
rejects a leading minus sign), so the claim's "every text that parses as an
integer is recorded" fails; the answer is kept unchanged. -/
theorem negative_score_not_recorded :
    get_answer envNegScore histU = Except.ok
      { search_query := some "What is policy X?", sources := some "Policy X states ...",
        gpt_groudedness := none, prompt := "SYS", answer := some "final answer",
        prompt_tokens := 30, completion_tokens := 8 } := rfl

/-- Claim C4 (amended): the score is recorded exactly when the evaluator
text is a non-empty string of digit characters (`str.isdigit`); negative
integers and integers with surrounding whitespace are treated as
unparsable, in which case the score key is left unset and the answer is
kept unchanged. -/
theorem groundedness_parse_policy (env : Env) (hist : List Message) (nm : Message)
    (t : String) (d : AnswerDict)
    (hflag : (ragFlow env (initialMessages env.prompt hist)).rag_error = false)
    (hnm : secondToLast (ragFlow env (initialMessages env.prompt hist)).messages = some nm)
    (hrole : nm.role = "function") (hname : nm.name = some "get_sources")
    (hg : env.groundedness = Except.ok t)
    (hOk : get_answer env hist = Except.ok d) :
    (pyIsDigit t = true → d.gpt_groudedness = some (digitsToNat t)) ∧
    (pyIsDigit t = false → d.gpt_groudedness = none ∧
      d.answer = (ragFlow env (initialMessages env.prompt hist)).answer) := by
  have hOk2 : qualityGate env (ragFlow env (initialMessages env.prompt hist)) =
      Except.ok d := hOk
  unfold qualityGate at hOk2
  simp only [hnm, hrole, hname, hflag, hg, Bool.not_false, Bool.and_true,
    if_true, eq_self_iff_true, decide_True] at hOk2
  constructor
  · intro hd
    rw [if_pos hd] at hOk2
    rw [← (Except.ok.injEq _ _).mp hOk2]
    rfl
  · intro hd
    rw [if_neg (by rw [hd]; exact Bool.false_ne_true)] at hOk2
    rw [← (Except.ok.injEq _ _).mp hOk2]
    exact ⟨rfl, rfl⟩

/-- A full retrieval turn whose evaluator returns `" 4 "`. -/
def envSpacedScore : Env := { envRetrieval with groundedness := Except.ok " 4 " }

/-- The dictionary returned by the turn `envSpacedScore`/`histU`. -/
def dSpacedScore : AnswerDict :=
  { search_query := some "What is policy X?", sources := some "Policy X states ...",
    gpt_groudedness := none, prompt := "SYS", answer := some "final answer",
    prompt_tokens := 30, completion_tokens := 8 }

/-- Witness for C4's amended theorem: `" 4 "` is whitespace-padded, so the
score stays unset and the answer is unchanged. -/
theorem groundedness_parse_policy_witness :
    (pyIsDigit " 4 " = true → dSpacedScore.gpt_groudedness = some (digitsToNat " 4 ")) ∧
    (pyIsDigit " 4 " = false → dSpacedScore.gpt_groudedness = none ∧
      dSpacedScore.answer =
        (ragFlow envSpacedScore (initialMessages envSpacedScore.prompt histU)).answer) :=
  groundedness_parse_policy envSpacedScore histU fnMsgRetrieval " 4 " dSpacedScore
    rfl rfl rfl rfl rfl rfl

/-! ### Claim C5 -/

/-- Claim C5 (confirmed): when the quality gate runs and the evaluator text
is recorded as an integer score, the answer is replaced by the fixed
ungrounded fallback exactly when the score is below 3 and kept otherwise,
and the `search_query`/`sources` metadata recorded by the RAG round are
carried into the result unchanged. -/
theorem quality_gate_threshold (env : Env) (hist : List Message) (nm : Message)
    (t : String) (d : AnswerDict)
    (hflag : (ragFlow env (initialMessages env.prompt hist)).rag_error = false)
    (hnm : secondToLast (ragFlow env (initialMessages env.prompt hist)).messages = some nm)
    (hrole : nm.role = "function") (hname : nm.name = some "get_sources")
    (hg : env.groundedness = Except.ok t)
    (hdigit : pyIsDigit t = true)
    (hOk : get_answer env hist = Except.ok d) :
    d.gpt_groudedness = some (digitsToNat t) ∧
    d.answer = (if digitsToNat t < 3 then some UNGROUNDED_ANSWER
      else (ragFlow env (initialMessages env.prompt hist)).answer) ∧
    d.search_query = (ragFlow env (initialMessages env.prompt hist)).search_query ∧
    d.sources = (ragFlow env (initialMessages env.prompt hist)).sources := by
  have hOk2 : qualityGate env (ragFlow env (initialMessages env.prompt hist)) =
      Except.ok d := hOk
  unfold qualityGate at hOk2
  simp only [hnm, hrole, hname, hflag, hg, Bool.not_false, Bool.and_true,
    if_true, eq_self_iff_true, decide_True] at hOk2
  rw [if_pos hdigit] at hOk2
  rw [← (Except.ok.injEq _ _).mp hOk2]
  exact ⟨rfl, rfl, rfl, rfl⟩

/-- A full retrieval turn whose evaluator returns `"1"`. -/
def envLowScore : Env := { envRetrieval with groundedness := Except.ok "1" }

/-- The dictionary returned by the turn `envLowScore`/`histU`. -/
def dLowScore : AnswerDict :=
  { search_query := some "What is policy X?", sources := some "Policy X states ...",
    gpt_groudedness := some 1, prompt := "SYS", answer := some UNGROUNDED_ANSWER,
    prompt_tokens := 30, completion_tokens := 8 }

/-- Witness for C5 at a concrete low-score turn: score 1 < 3, so the answer
is the fallback and the metadata is retained. -/
theorem quality_gate_threshold_witness :
    dLowScore.gpt_groudedness = some (digitsToNat "1") ∧
    dLowScore.answer = (if digitsToNat "1" < 3 then some UNGROUNDED_ANSWER
      else (ragFlow envLowScore (initialMessages envLowScore.prompt histU)).answer) ∧
    dLowScore.search_query =
      (ragFlow envLowScore (initialMessages envLowScore.prompt histU)).search_query ∧
    dLowScore.sources =
      (ragFlow envLowScore (initialMessages envLowScore.prompt histU)).sources :=
  quality_gate_threshold envLowScore histU fnMsgRetrieval "1" dLowScore
    rfl rfl rfl rfl rfl rfl rfl

/-! ### Claim C6 -/

/-- A retrieval turn whose directive arguments are valid JSON but lack the
`question` key. -/
def envNoQuestion : Env := { envRetrieval with argsParse := some [("q", "x")] }

/-- Claim C6 (counterexample): the retrieval capability is invoked
(line 124 runs), yet the returned dictionary has no `sources` key, because
the later `function_args["question"]` lookup (line 159) raises and turns
the turn into an error turn — refuting "sources present iff retrieval was
invoked". -/
theorem invoked_without_sources :
    (ragFlow envNoQuestion (initialMessages envNoQuestion.prompt histU)).retrieval_invoked
      = true ∧
    get_answer envNoQuestion histU = Except.ok
      { search_query := none, sources := none, gpt_groudedness := none,
        prompt := "SYS",
        answer := some (ERROR_ANSWER ++ " RAG flow: " ++ keyErrorMsg "question"),
        prompt_tokens := 30, completion_tokens := 8 } := ⟨rfl, rfl⟩

/-- Claim C6 (amended): in every returned dictionary, the `sources` key is
present iff the retrieval capability was invoked and the RAG round then
completed without an exception (invocation alone does not suffice). -/
theorem sources_presence_iff (env : Env) (hist : List Message) (d : AnswerDict)
    (hOk : get_answer env hist = Except.ok d) :
    d.sources.isSome = ((ragFlow env (initialMessages env.prompt hist)).retrieval_invoked
      && !(ragFlow env (initialMessages env.prompt hist)).rag_error) := by
  have hOk2 : qualityGate env (ragFlow env (initialMessages env.prompt hist)) =
      Except.ok d := hOk
  obtain ⟨sc, a, hd⟩ := qualityGate_ok_shape env _ d hOk2
  subst hd
  exact ragFlow_sources_invoked env _

/-- Witness for C6's amended theorem at the full retrieval turn. -/
theorem sources_presence_iff_witness :
    dLowScore.sources.isSome =
      ((ragFlow envLowScore (initialMessages envLowScore.prompt histU)).retrieval_invoked
        && !(ragFlow envLowScore (initialMessages envLowScore.prompt histU)).rag_error) :=
  sources_presence_iff envLowScore histU dLowScore rfl

/-! ### Claim C7 -/

/-- Claim C7 (confirmed): when the directive names the known capability and
the invocation succeeds, the message list handed to the second completion
call is the initial conversation followed immediately by the assistant's
function-call message (content null) and then the function-result message
carrying the same function name and the capability's textual result — so no
other assistant message stands between them. -/
theorem second_call_message_order (env : Env) (msgs0 : List Message)
    (r1 : CompletionResponse) (fc : FunctionCall) (args : List (String × String))
    (res : String)
    (h1 : env.firstCompletion = Except.ok r1)
    (h2 : r1.message.function_call = some fc)
    (h3 : fc.fname = "get_sources")
    (h4 : env.argsParse = some args)
    (h5 : env.retrievalResult = Except.ok res) :
    (ragFlow env msgs0).second_call_messages = some (msgs0 ++
      [{ role := r1.message.role, content := none, function_call := some fc, name := none },
       { role := "function", content := some res, function_call := none,
         name := some fc.fname }]) := by
  obtain ⟨fn, fa⟩ := fc
  simp only at h3
  subst h3
  unfold ragFlow
  simp only [h1, h2, h4, h5, dif_pos]
  rcases hs : env.secondCompletion with e | r2
  · rfl
  · rcases hq : args.lookup "question" with _ | q
    · simp only [hq]; rfl
    · simp only [hq]; rfl

/-- Witness for C7 at the concrete retrieval turn. -/
theorem second_call_message_order_witness :
    (ragFlow envRetrieval (initialMessages "SYS" histU)).second_call_messages =
      some ((initialMessages "SYS" histU) ++
        [{ role := respFC.message.role, content := none, function_call := some fcGetSources,
           name := none },
         { role := "function", content := some "Policy X states ...", function_call := none,
           name := some fcGetSources.fname }]) :=
  second_call_message_order envRetrieval (initialMessages "SYS" histU) respFC fcGetSources
    [("question", "What is policy X?")] "Policy X states ..." rfl rfl rfl rfl rfl

/-! ### Claim C8 -/

/-- Claim C8 (confirmed): on a turn whose RAG round succeeds, the token
counters in the returned dictionary are the usage of the single completion
call when no function call occurred, and the sum of the usages of the two
completion calls when one did. -/
theorem token_accumulation (env : Env) (hist : List Message)
    (r1 : CompletionResponse) (d : AnswerDict)
    (h1 : env.firstCompletion = Except.ok r1)
    (hflag : (ragFlow env (initialMessages env.prompt hist)).rag_error = false)
    (hOk : get_answer env hist = Except.ok d) :
    (r1.message.function_call = none →
      d.prompt_tokens = r1.usage.prompt_tokens ∧
      d.completion_tokens = r1.usage.completion_tokens) ∧
    (∀ fc r2, r1.message.function_call = some fc → env.secondCompletion = Except.ok r2 →
      d.prompt_tokens = r1.usage.prompt_tokens + r2.usage.prompt_tokens ∧
      d.completion_tokens = r1.usage.completion_tokens + r2.usage.completion_tokens) := by
  have hOk2 : qualityGate env (ragFlow env (initialMessages env.prompt hist)) =
      Except.ok d := hOk
  obtain ⟨sc, a, hd⟩ := qualityGate_ok_shape env _ d hOk2
  subst hd
  constructor
  · intro h2
    rw [mkDict, ragFlow_direct env _ r1 h1 h2]
    exact ⟨rfl, rfl⟩
  · intro fc r2 h2 h6
    rcases hargs : env.argsParse with _ | args
    · simp [ragFlow, h1, h2, hargs, ragError] at hflag
    · by_cases hname : fc.fname = "get_sources"
      · rcases hret : env.retrievalResult with e | res
        · simp [ragFlow, h1, h2, hargs, hname, hret, ragError] at hflag
        · rcases hq : args.lookup "question" with _ | q
          · simp [ragFlow, h1, h2, hargs, hname, hret, h6, hq, ragError] at hflag
          · rw [mkDict]
            simp [ragFlow, h1, h2, hargs, hname, hret, h6, hq, ragSuccess]
      · simp [ragFlow, h1, h2, hargs, hname, ragError] at hflag

/-- The dictionary returned by the turn `envDirectOk`/`histU`. -/
def dDirectOk : AnswerDict :=
  { search_query := none, sources := none, gpt_groudedness := none,
    prompt := "SYS", answer := some "direct reply",
    prompt_tokens := 7, completion_tokens := 5 }

/-- Witness for C8 at the concrete direct-answer turn. -/
theorem token_accumulation_witness :
    dDirectOk.prompt_tokens = respDirect.usage.prompt_tokens ∧
    dDirectOk.completion_tokens = respDirect.usage.completion_tokens :=
  (token_accumulation envDirectOk histU respDirect dDirectOk rfl rfl rfl).1 rfl

/-! ### Claim C9 -/

/-- The assistant message of a directive naming an unknown function. -/
def msgUnknownFC : Message :=
  { role := "assistant", content := none,
    function_call := some { fname := "do_magic", arguments := "argtext" } }

/-- A first completion whose directive names an unknown function. -/
def respUnknownFC : CompletionResponse :=
  { message := msgUnknownFC, usage := { prompt_tokens := 3, completion_tokens := 1 } }

def envUnknownFn : Env := { envRetrieval with firstCompletion := Except.ok respUnknownFC }

/-- Claim C9 (counterexample): with an empty chat history, a directive
naming an unknown function does not end in the error terminal state — the
broad handler does set the error answer, but the quality-control step then
raises `IndexError` on `messages[-2]` and no dictionary is returned. -/
theorem unknown_function_empty_history_raises :
    get_answer envUnknownFn [] = Except.error indexErrorMsg := rfl

/-- Claim C9 (amended): when the directive names a function absent from the
dispatch table and a dictionary is returned at all (with an empty history
the `messages[-2]` check raises instead), the turn is an error turn: the
answer is the fixed prefix plus the `KeyError` text, no second completion
call is made, and no retrieval or groundedness metadata is set. -/
theorem unknown_function_error_turn (env : Env) (hist : List Message)
    (r1 : CompletionResponse) (fc : FunctionCall) (args : List (String × String))
    (d : AnswerDict)
    (h1 : env.firstCompletion = Except.ok r1)
    (h2 : r1.message.function_call = some fc)
    (h3 : ¬ fc.fname = "get_sources")
    (h4 : env.argsParse = some args)
    (hOk : get_answer env hist = Except.ok d) :
    d.answer = some (ERROR_ANSWER ++ " RAG flow: " ++ keyErrorMsg fc.fname) ∧
    d.search_query = none ∧ d.sources = none ∧ d.gpt_groudedness = none ∧
    (ragFlow env (initialMessages env.prompt hist)).second_call_messages = none := by
  have hst := ragFlow_unknown_name env (initialMessages env.prompt hist) r1 fc args
    h1 h2 h3 h4
  have hOk2 : qualityGate env (ragFlow env (initialMessages env.prompt hist)) =
      Except.ok d := hOk
  have hflag : (ragFlow env (initialMessages env.prompt hist)).rag_error = true := by
    rw [hst]; rfl
  have hd := qualityGate_of_rag_error env _ d hflag hOk2
  subst hd
  rw [mkDict, hst]
  exact ⟨rfl, rfl, rfl, rfl, rfl⟩

/-- The dictionary returned by the turn `envUnknownFn`/`histU`. -/
def dUnknownFn : AnswerDict :=
  { search_query := none, sources := none, gpt_groudedness := none,
    prompt := "SYS",
    answer := some (ERROR_ANSWER ++ " RAG flow: " ++ keyErrorMsg "do_magic"),
    prompt_tokens := 3, completion_tokens := 1 }

/-- Witness for C9's amended theorem with a non-empty history. -/
theorem unknown_function_error_turn_witness :
    dUnknownFn.answer = some (ERROR_ANSWER ++ " RAG flow: " ++ keyErrorMsg "do_magic") ∧
    dUnknownFn.search_query = none ∧ dUnknownFn.sources = none ∧
    dUnknownFn.gpt_groudedness = none ∧
    (ragFlow envUnknownFn (initialMessages envUnknownFn.prompt histU)).second_call_messages
      = none :=
  unknown_function_error_turn envUnknownFn histU respUnknownFC
    { fname := "do_magic", arguments := "argtext" } [("question", "What is policy X?")]
    dUnknownFn rfl rfl (by decide) rfl rfl

/-! ### Claim C10 -/

/-- The RAG flow on a retrieval round whose arguments lack the `question`
key: the invocation and the second completion both succeed, then the
metadata lookup at line 159 raises `KeyError`, handled by the broad
handler. -/
theorem ragFlow_missing_question (env : Env) (m : List Message)
    (r1 r2 : CompletionResponse) (fc : FunctionCall) (args : List (String × String))
    (res : String)
    (h1 : env.firstCompletion = Except.ok r1)
    (h2 : r1.message.function_call = some fc)
    (h3 : fc.fname = "get_sources")
    (h4 : env.argsParse = some args)
    (hq : args.lookup "question" = none)
    (h5 : env.retrievalResult = Except.ok res)
    (h6 : env.secondCompletion = Except.ok r2) :
    ragFlow env m = ragError
      ((m ++ [{ role := r1.message.role, content := none, function_call := some fc,
                name := none },
              { role := "function", content := some res, function_call := none,
                name := some fc.fname }]) ++
        [{ role := r2.message.role, content := r2.message.content, function_call := none,
           name := none }])
      (r1.usage.prompt_tokens + r2.usage.prompt_tokens)
      (r1.usage.completion_tokens + r2.usage.completion_tokens) true
      (some (m ++ [{ role := r1.message.role, content := none, function_call := some fc,
                     name := none },
                   { role := "function", content := some res, function_call := none,
                     name := some fc.fname }]))
      (keyErrorMsg "question") := by
  obtain ⟨fn, fa⟩ := fc
  simp only at h3
  subst h3
  unfold ragFlow
  simp [h1, h2, h4, h5, h6, hq]

/-- Claim C10 (confirmed): when the directive calls `get_sources` with valid
JSON arguments lacking the `question` key, the whole turn becomes an error
turn — error answer, no `sources`/`search_query`/score keys — even though
the retrieval invocation and the second completion both succeeded. -/
theorem missing_question_key_error_turn (env : Env) (hist : List Message)
    (r1 r2 : CompletionResponse) (fc : FunctionCall) (args : List (String × String))
    (res : String) (d : AnswerDict)
    (h1 : env.firstCompletion = Except.ok r1)
    (h2 : r1.message.function_call = some fc)
    (h3 : fc.fname = "get_sources")
    (h4 : env.argsParse = some args)
    (hq : args.lookup "question" = none)
    (h5 : env.retrievalResult = Except.ok res)
    (h6 : env.secondCompletion = Except.ok r2)
    (hOk : get_answer env hist = Except.ok d) :
    (ragFlow env (initialMessages env.prompt hist)).retrieval_invoked = true ∧
    d.answer = some (ERROR_ANSWER ++ " RAG flow: " ++ keyErrorMsg "question") ∧
    d.search_query = none ∧ d.sources = none ∧ d.gpt_groudedness = none := by
  have hst := ragFlow_missing_question env (initialMessages env.prompt hist) r1 r2 fc args
    res h1 h2 h3 h4 hq h5 h6
  have hOk2 : qualityGate env (ragFlow env (initialMessages env.prompt hist)) =
      Except.ok d := hOk
  have hflag : (ragFlow env (initialMessages env.prompt hist)).rag_error = true := by
    rw [hst]; rfl
  have hd := qualityGate_of_rag_error env _ d hflag hOk2
  subst hd
  rw [mkDict, hst]
  exact ⟨rfl, rfl, rfl, rfl, rfl⟩

/-- The dictionary returned by the turn `envNoQuestion`/`histU`. -/
def dNoQuestion : AnswerDict :=
  { search_query := none, sources := none, gpt_groudedness := none,
    prompt := "SYS",
    answer := some (ERROR_ANSWER ++ " RAG flow: " ++ keyErrorMsg "question"),
    prompt_tokens := 30, completion_tokens := 8 }

/-- Witness for C10 at the concrete missing-`question` turn. -/
theorem missing_question_key_error_turn_witness :
    (ragFlow envNoQuestion (initialMessages envNoQuestion.prompt histU)).retrieval_invoked
      = true ∧
    dNoQuestion.answer = some (ERROR_ANSWER ++ " RAG flow: " ++ keyErrorMsg "question") ∧
    dNoQuestion.search_query = none ∧ dNoQuestion.sources = none ∧
    dNoQuestion.gpt_groudedness = none :=
  missing_question_key_error_turn envNoQuestion histU respFC respFinal fcGetSources
    [("q", "x")] "Policy X states ..." dNoQuestion rfl rfl rfl rfl rfl rfl rfl rfl

end Orc
